import Mathlib

/-
Verification of the zoom-elgato-light-automation daemon against its design
document.  The Python source is shallowly embedded: strings are lists of
characters, Python integers are Int (unbounded), exceptions are the error
case of Except, and the network is an oracle parameter.
-/

namespace ZoomElgato

/-- Decidable equality for Except results, so that concrete runs of the
embedded functions can be checked by decide. -/
instance {ε α : Type} [DecidableEq ε] [DecidableEq α] :
    DecidableEq (Except ε α) := fun x y =>
  match x, y with
  | Except.error a, Except.error b =>
    if h : a = b then Decidable.isTrue (congrArg Except.error h)
    else Decidable.isFalse (fun hc => h (Except.error.inj hc))
  | Except.ok a, Except.ok b =>
    if h : a = b then Decidable.isTrue (congrArg Except.ok h)
    else Decidable.isFalse (fun hc => h (Except.ok.inj hc))
  | Except.error _, Except.ok _ => Decidable.isFalse (fun hc => Except.noConfusion hc)
  | Except.ok _, Except.error _ => Decidable.isFalse (fun hc => Except.noConfusion hc)

/-- Python str.strip: drop whitespace from both ends of the string. -/
def pyStrip (s : List Char) : List Char :=
  ((s.dropWhile Char.isWhitespace).reverse.dropWhile Char.isWhitespace).reverse

/-- Value of a list of decimal digit characters, most significant first. -/
def digitsVal (ds : List Char) : Nat :=
  ds.foldl (fun acc d => 10 * acc + (d.toNat - 48)) 0

/-- Whether every character of the list is a decimal digit. -/
def allDigits (ds : List Char) : Bool :=
  ds.all Char.isDigit

/-- Python int(str): strips whitespace, accepts an optional sign followed by
one or more decimal digits, and raises ValueError otherwise.  Exotic literal
forms (underscore separators, non-ASCII digits) do not occur in any input
considered here and are treated as errors. -/
def pyInt (s : List Char) : Except String Int :=
  let t := pyStrip s
  let core : List Char × Bool :=
    match t with
    | '-' :: ds => (ds, true)
    | '+' :: ds => (ds, false)
    | ds => (ds, false)
  if (!core.1.isEmpty) && allDigits core.1 then
    Except.ok (if core.2 then -(digitsVal core.1 : Int) else (digitsVal core.1 : Int))
  else
    Except.error ("ValueError: invalid literal for int() with base 10")

/-- Python str.split(sep) for a one-character separator: splits at every
occurrence of the separator; the empty string yields a single empty part. -/
def splitOnChar (sep : Char) (s : List Char) : List (List Char) :=
  s.foldr
    (fun c acc =>
      match acc with
      | [] => [[c]]
      | cur :: rest => if c = sep then [] :: cur :: rest else (c :: cur) :: rest)
    [[]]

/-- Configuration for a single Elgato Key Light (dataclass LightConfig in the
source): ip address, brightness percent, color temperature in Kelvin. -/
structure LightConfig where
  ip : List Char
  brightness : Int
  temperature : Int
  deriving DecidableEq

/-- Kelvin to mireds conversion, the temperature_mireds property of
LightConfig.  Python computes int(1_000_000 / self.temperature): true (float)
division then truncation toward zero, raising ZeroDivisionError when the
temperature is zero.  For every integer k with 0 < k the float truncation
int(1000000 / k) coincides with the floor 1000000 / k (the quotient is at most
1000000, where the double-precision rounding error is far smaller than the gap
1 / k separating the exact quotient from the next integer), and for negative k
both truncate toward zero, so the conversion is modelled with Int.tdiv,
Lean's truncating integer division. -/
def temperature_mireds (c : LightConfig) : Except String Int :=
  if c.temperature = 0 then
    Except.error ("ZeroDivisionError: division by zero")
  else
    Except.ok (max 143 (min 344 (Int.tdiv 1000000 c.temperature)))

/-- Loop body of parse_lights_config over the comma-separated entries: a
stripped-empty entry is skipped, one field is a bare ip with defaults
brightness 100 and temperature 5600, three fields are ip, brightness and
temperature with int() applied to the last two (a ValueError from int()
propagates out of the whole function, modelled by the error case), and any
other field count is skipped with a warning. -/
def parseEntries : List (List Char) → Except String (List LightConfig)
  | [] => Except.ok []
  | e :: rest =>
    let entry := pyStrip e
    if entry.isEmpty then parseEntries rest
    else
      match splitOnChar ':' entry with
      | [ip] => (parseEntries rest).map (fun ls => ⟨ip, 100, 5600⟩ :: ls)
      | [ip, b, t] =>
        match pyInt b with
        | Except.error m => Except.error m
        | Except.ok bv =>
          match pyInt t with
          | Except.error m => Except.error m
          | Except.ok tv => (parseEntries rest).map (fun ls => ⟨ip, bv, tv⟩ :: ls)
      | _ => parseEntries rest

/-- parse_lights_config from the source, with the value of the ELGATO_LIGHTS
environment variable (default empty) passed explicitly: an empty string yields
no lights, otherwise the string is split on commas and each entry parsed. -/
def parse_lights_config (env : List Char) : Except String (List LightConfig) :=
  if env.isEmpty then Except.ok []
  else parseEntries (splitOnChar ',' env)

/-- Startup validation in main: the process exits with code 1 when the parsed
light list is empty, and otherwise proceeds to monitoring (exit code 0 as far
as the startup check is concerned).  An exception during parsing aborts the
process before the check, modelled by the error case. -/
def startupExit (env : List Char) : Except String Nat :=
  (parse_lights_config env).map (fun ls => if ls.isEmpty then 1 else 0)

/-- One entry of the lights array of the wire payload built by set_lights.
The field onValue models the JSON key named on, the Python integer literal 0
or 1; the brightness and temperature keys are present only in the power-on
payload, absence modelled by none. -/
structure LightPayload where
  onValue : Nat
  brightness : Option Int
  temperature : Option Int
  deriving DecidableEq

/-- Body of the PUT request to /elgato/lights: an object holding the lights
array, always a singleton in the source. -/
structure RequestBody where
  lights : List LightPayload
  deriving DecidableEq

/-- Per-device result of one dispatch: the device address and whether the
request succeeded (in the source this is what the per-device log line and the
test script's set_light return value record). -/
structure DispatchOutcome where
  ip : List Char
  succeeded : Bool
  deriving DecidableEq

/-- Payload construction inside the loop of set_lights: turning on sends
on=1 with the light's brightness and mired temperature (evaluating
temperature_mireds, whose ZeroDivisionError would propagate because payload
construction happens outside the try block); turning off sends exactly
on=0 with no brightness and no temperature key. -/
def buildPayload (turnOn : Bool) (l : LightConfig) : Except String RequestBody :=
  if turnOn then
    (temperature_mireds l).map (fun m => ⟨[⟨1, some l.brightness, some m⟩]⟩)
  else
    Except.ok ⟨[⟨0, none, none⟩]⟩

/-- Dispatcher set_lights: for each configured light in order, build the
payload and issue one PUT request; the try block around urlopen catches every
exception from the request itself, records the failure for that light only and
continues with the next light.  The network is modelled as an oracle from the
request (address and body) to success or failure.  An exception raised by
payload construction itself is not caught and propagates (the error case; the
requests already issued to earlier lights are not represented in that case,
which only the error-path claims use). -/
def set_lights (net : List Char → RequestBody → Bool) (turnOn : Bool) :
    List LightConfig → Except String (List DispatchOutcome)
  | [] => Except.ok []
  | l :: rest =>
    match buildPayload turnOn l with
    | Except.error m => Except.error m
    | Except.ok body =>
      (set_lights net turnOn rest).map (fun os => ⟨l.ip, net l.ip body⟩ :: os)

/-- Mired to Kelvin conversion from the test script (mireds_to_kelvin),
modelled like temperature_mireds: int() truncation of the true quotient. -/
def mireds_to_kelvin (mireds : Int) : Except String Int :=
  if mireds = 0 then
    Except.error ("ZeroDivisionError: division by zero")
  else
    Except.ok (Int.tdiv 1000000 mireds)

/-- Marker whose presence in a log line signals camera activation. -/
def startMarker : List Char := "CMIODeviceStartStream".toList

/-- Marker whose presence in a log line signals camera deactivation. -/
def stopMarker : List Char := "CMIODeviceStopStream".toList

/-- Whether the first list is an initial segment of the second. -/
def leadsList : List Char → List Char → Bool
  | [], _ => true
  | _ :: _, [] => false
  | c :: cs, d :: ds => c == d && leadsList cs ds

/-- Python substring containment (the in operator on strings): the marker
occurs contiguously somewhere in the line. -/
def containsSub (marker : List Char) : List Char → Bool
  | [] => marker.isEmpty
  | c :: rest => leadsList marker (c :: rest) || containsSub marker rest

/-- One iteration of the loop in monitor_camera: the start marker is checked
first, the stop marker only in the elif branch, each guarded by the current
camera_on flag.  Returns the new flag and the dispatch issued on this line, if
any (the Bool carried by the option is the on argument passed to set_lights). -/
def monitorStep (camera_on : Bool) (line : List Char) : Bool × Option Bool :=
  if containsSub startMarker line then
    if !camera_on then (true, some true) else (camera_on, none)
  else if containsSub stopMarker line then
    if camera_on then (false, some false) else (camera_on, none)
  else (camera_on, none)

/-- The monitor loop over a finite batch of lines: threads the camera_on flag
through monitorStep and collects the dispatches in order. -/
def monitorRun (camera_on : Bool) : List (List Char) → Bool × List Bool
  | [] => (camera_on, [])
  | line :: rest =>
    let step := monitorStep camera_on line
    let result := monitorRun step.1 rest
    (result.1, step.2.toList ++ result.2)

/-- Classification of one line of the event stream, as performed by the
nested if and elif of monitor_camera. -/
inductive CamEvent
  | startSignal
  | stopSignal
  | irrelevant
  deriving DecidableEq

/-- The classification the monitor loop applies to each line: start marker
first, stop marker only when the start marker is absent. -/
def classifyLine (line : List Char) : CamEvent :=
  if containsSub startMarker line then CamEvent.startSignal
  else if containsSub stopMarker line then CamEvent.stopSignal
  else CamEvent.irrelevant

/-- The camera state machine of monitor_camera at the level of classified
events: a start signal while off turns on and dispatches on, a stop signal
while on turns off and dispatches off, everything else leaves the flag
unchanged with no dispatch. -/
def camStep (camera_on : Bool) : CamEvent → Bool × Option Bool
  | CamEvent.startSignal =>
    if !camera_on then (true, some true) else (camera_on, none)
  | CamEvent.stopSignal =>
    if camera_on then (false, some false) else (camera_on, none)
  | CamEvent.irrelevant => (camera_on, none)

/-- The state machine run over a finite batch of classified events, collecting
the dispatches in order. -/
def camRun (camera_on : Bool) : List CamEvent → Bool × List Bool
  | [] => (camera_on, [])
  | e :: es =>
    let step := camStep camera_on e
    let result := camRun step.1 es
    (result.1, step.2.toList ++ result.2)

/-- Number of transitions into the target state actually taken by the machine
while consuming the events, defined independently of the dispatch list: a step
counts when the state changes and the new state is the target. -/
def transCount (target : Bool) (camera_on : Bool) : List CamEvent → Nat
  | [] => 0
  | e :: es =>
    let s2 := (camStep camera_on e).1
    (if camera_on ≠ s2 ∧ s2 = target then 1 else 0) + transCount target s2 es

/-- Modelled from the spec words for comparison with the source: the design
document describes the Kelvin to mired conversion as round(1000000 / kelvin)
clamped to the interval from 143 to 344, with nearest-integer rounding.
Implemented as round half up; no half-integer quotient arises at the inputs
where it is used, so the tie-breaking convention is immaterial there. -/
def miredSpecRound (kelvin : Nat) : Nat :=
  max 143 (min 344 ((2 * 1000000 + kelvin) / (2 * kelvin)))

/-- Modelled from the spec words for comparison with the source parser: the
per-entry contract of the config parser.  A bare address yields the defaults
brightness 100 and temperature 5600 K, an address:brightness:temperature
triple with numeric fields yields those values, and any other shape is not a
well-formed entry. -/
def specEntryTarget (entry : List Char) : Option LightConfig :=
  match splitOnChar ':' entry with
  | [ip] => some ⟨ip, 100, 5600⟩
  | [ip, b, t] =>
    match pyInt b, pyInt t with
    | Except.ok bv, Except.ok tv => some ⟨ip, bv, tv⟩
    | _, _ => none
  | _ => none

/-- Bound check for the Kelvin/mired round trip at one Kelvin value, phrased
over Nat so that the whole configured Kelvin range can be checked by
evaluation: the mired value lies between 143 and 344 and the recovered Kelvin
value differs from the original by at most 48. -/
def roundtripOk (k : Nat) : Bool :=
  let m := max 143 (min 344 (1000000 / k))
  let k2 := 1000000 / m
  decide (143 ≤ m) && decide (m ≤ 344) && decide (k - k2 ≤ 48) && decide (k2 - k ≤ 48)

/-- Evaluates roundtripOk on every value in an interval of the given width,
splitting the interval in half at each step so that the evaluation stack stays
logarithmic in the width; the first argument is recursion fuel. -/
def checkRange : Nat → Nat → Nat → Bool
  | _, _, 0 => true
  | _, lo, 1 => roundtripOk lo
  | 0, _, _ + 2 => false
  | d + 1, lo, n + 2 =>
    checkRange d lo ((n + 2) / 2) &&
      checkRange d (lo + (n + 2) / 2) (n + 2 - (n + 2) / 2)

/-- Example network oracle for the fan-out witness: every device succeeds
except the one at address 10.0.0.2. -/
def exNet : List Char → RequestBody → Bool :=
  fun ip _ => !(ip == "10.0.0.2".toList)

/-- Example target list for the fan-out witness: three devices with the
failing one in the middle. -/
def exLights : List LightConfig :=
  [⟨"10.0.0.1".toList, 50, 4500⟩, ⟨"10.0.0.2".toList, 50, 4500⟩,
   ⟨"10.0.0.3".toList, 50, 4500⟩]

theorem checkRange_sound :
    ∀ d lo n, checkRange d lo n = true → ∀ j, j < n → roundtripOk (lo + j) = true := by
  intro d
  induction d with
  | zero =>
    intro lo n hc j hj
    match n, hc, hj with
    | 1, hc, hj =>
      have hj0 : j = 0 := by omega
      subst hj0
      simpa using hc
    | m + 2, hc, hj => simp [checkRange] at hc
  | succ d ih =>
    intro lo n hc j hj
    match n, hc, hj with
    | 1, hc, hj =>
      have hj0 : j = 0 := by omega
      subst hj0
      simpa using hc
    | m + 2, hc, hj =>
      simp only [checkRange, Bool.and_eq_true] at hc
      by_cases hcase : j < (m + 2) / 2
      · exact ih lo _ hc.1 j hcase
      · have h2 := ih (lo + (m + 2) / 2) _ hc.2 (j - (m + 2) / 2) (by omega)
        have heq : lo + (m + 2) / 2 + (j - (m + 2) / 2) = lo + j := by omega
        rwa [heq] at h2

set_option maxRecDepth 4000 in
theorem roundtrip_all : ∀ k, 2900 ≤ k → k ≤ 7000 → roundtripOk k = true := by
  have h := checkRange_sound 16 2900 4101 (by decide)
  intro k h1 h2
  have h3 := h (k - 2900) (by omega)
  have heq : 2900 + (k - 2900) = k := by omega
  exact heq ▸ h3
theorem camRun_count_true :
    ∀ (es : List CamEvent) (s : Bool),
      ((camRun s es).2.count true = transCount true s es) := by
  intro es
  induction es with
  | nil => intro s; rfl
  | cons e es ih =>
    intro s
    cases e <;> cases s <;>
      simp [camRun, camStep, transCount, ih, List.count_cons, List.count_append,
        Nat.add_comm]

theorem camRun_count_false :
    ∀ (es : List CamEvent) (s : Bool),
      ((camRun s es).2.count false = transCount false s es) := by
  intro es
  induction es with
  | nil => intro s; rfl
  | cons e es ih =>
    intro s
    cases e <;> cases s <;>
      simp [camRun, camStep, transCount, ih, List.count_cons, List.count_append,
        Nat.add_comm]

theorem camRun_replicate_on :
    ∀ n, camRun true (List.replicate n CamEvent.startSignal) = (true, []) := by
  intro n
  induction n with
  | zero => rfl
  | succ n ih => simp [List.replicate_succ, camRun, camStep, ih]

/-- C1: for every finite sequence of classified events fed to the camera state
machine starting in state OFF, the number of dispatches with turnOn true
equals the number of OFF to ON transitions actually taken and the number of
dispatches with turnOn false equals the number of ON to OFF transitions
actually taken; N consecutive start signals with no intervening stop signal
(N at least 1) produce exactly one dispatch with turnOn true, and a start
signal while ON or a stop signal while OFF changes neither the state nor
causes a dispatch. -/
theorem dispatch_matches_transitions :
    (∀ es : List CamEvent,
        (camRun false es).2.count true = transCount true false es ∧
        (camRun false es).2.count false = transCount false false es) ∧
    (∀ n : Nat, 1 ≤ n →
        camRun false (List.replicate n CamEvent.startSignal) = (true, [true])) ∧
    camStep true CamEvent.startSignal = (true, none) ∧
    camStep false CamEvent.stopSignal = (false, none) := by
  refine ⟨fun es => ⟨camRun_count_true es false, camRun_count_false es false⟩, ?_, rfl, rfl⟩
  intro n hn
  match n, hn with
  | n + 1, _ =>
    simp [List.replicate_succ, camRun, camStep, camRun_replicate_on n]

theorem dispatch_matches_transitions_witness :
    camRun false (List.replicate 3 CamEvent.startSignal) = (true, [true]) :=
  dispatch_matches_transitions.2.1 3 (by decide)

/-- C2: feeding the monitor loop, started in state OFF, a line containing the
start marker followed by a line containing the stop marker (and not the start
marker, whose presence would take the first branch — the subject of claim C10)
drives the camera state OFF to ON to OFF and triggers exactly the two
dispatches turnOn true then turnOn false, in that order; a line containing
neither marker changes nothing and triggers no dispatch. -/
theorem end_to_end_two_lines :
    (∀ l1 l2 : List Char,
        containsSub startMarker l1 = true →
        containsSub stopMarker l2 = true →
        containsSub startMarker l2 = false →
        monitorRun false [l1, l2] = (false, [true, false])) ∧
    (∀ (line : List Char) (s : Bool),
        containsSub startMarker line = false →
        containsSub stopMarker line = false →
        monitorStep s line = (s, none)) := by
  constructor
  · intro l1 l2 h1 h2 h3
    simp [monitorRun, monitorStep, h1, h2, h3]
  · intro line s h1 h2
    simp [monitorStep, h1, h2]

theorem end_to_end_two_lines_witness :
    monitorRun false
      ["ts cmio: CMIODeviceStartStream device 0x21".toList,
       "ts cmio: CMIODeviceStopStream device 0x21".toList] =
      (false, [true, false]) :=
  end_to_end_two_lines.1 _ _ (by decide) (by decide) (by decide)

/-- C10: a line that contains both the start marker and the stop marker is
classified as a start signal only — the stop check sits in the elif branch and
is never reached — so in state OFF such a line triggers the turn-on transition
and dispatch, and in state ON it is a no-op, never a turn-off. -/
theorem both_markers_start_only :
    ∀ line : List Char,
      containsSub startMarker line = true →
      containsSub stopMarker line = true →
      classifyLine line = CamEvent.startSignal ∧
      monitorStep false line = (true, some true) ∧
      monitorStep true line = (true, none) := by
  intro line h1 h2
  refine ⟨?_, ?_, ?_⟩ <;> simp [classifyLine, monitorStep, h1]

theorem both_markers_start_only_witness :
    classifyLine ("x CMIODeviceStartStream y CMIODeviceStopStream z".toList) =
        CamEvent.startSignal ∧
      monitorStep false ("x CMIODeviceStartStream y CMIODeviceStopStream z".toList) =
        (true, some true) ∧
      monitorStep true ("x CMIODeviceStartStream y CMIODeviceStopStream z".toList) =
        (true, none) :=
  both_markers_start_only _ (by decide) (by decide)

theorem tdiv_million (b : Nat) :
    Int.tdiv (1000000 : Int) ((b : Nat) : Int) = ((1000000 / b : Nat) : Int) := rfl

theorem div_bracket (a b : Nat) (hb : 0 < b) :
    (a / b) * b ≤ a ∧ a < (a / b + 1) * b := by
  have hdm := Nat.div_add_mod a b
  have hml : a % b < b := Nat.mod_lt _ hb
  have hx : (a / b + 1) * b = b * (a / b) + b := by ring
  have hy : (a / b) * b = b * (a / b) := by ring
  omega

/-- C3 counterexample: at the default temperature 5600 K the source derives
178 mireds (truncation of 178.57...), while the rounded value the claim
specifies is 179, so the derived mired value is not the nearest-integer
rounding. -/
theorem mired_rounding_cex :
    temperature_mireds ⟨"192.168.1.100".toList, 100, 5600⟩ = Except.ok 178 ∧
    miredSpecRound 5600 = 179 ∧
    temperature_mireds ⟨"192.168.1.100".toList, 100, 5600⟩ ≠
      Except.ok ((miredSpecRound 5600 : Nat) : Int) := by
  decide

/-- C3 amended: for every light target with positive color temperature the
derived mired value equals the truncation (floor, not nearest-integer
rounding) of 1000000 / kelvin clamped to the interval from 143 to 344; the
quotient q below is characterized as the exact floor by the two product
inequalities. -/
theorem mired_is_floor_clamped :
    ∀ c : LightConfig, 0 < c.temperature →
      ∃ m : Int, temperature_mireds c = Except.ok m ∧
        143 ≤ m ∧ m ≤ 344 ∧
        ∃ q : Int, m = max 143 (min 344 q) ∧
          q * c.temperature ≤ 1000000 ∧ 1000000 < (q + 1) * c.temperature := by
  intro c hpos
  have hne : c.temperature ≠ 0 := by omega
  have htn : c.temperature = ((c.temperature.toNat : Nat) : Int) :=
    (Int.toNat_of_nonneg (by omega)).symm
  have hn : 0 < c.temperature.toNat := by omega
  refine ⟨max 143 (min 344 (Int.tdiv 1000000 c.temperature)), ?_, ?_, ?_,
    Int.tdiv 1000000 c.temperature, rfl, ?_, ?_⟩
  · simp [temperature_mireds, hne]
  · exact le_max_left _ _
  · exact max_le (by norm_num) (min_le_left _ _)
  · rw [htn, tdiv_million]
    exact_mod_cast (div_bracket 1000000 c.temperature.toNat hn).1
  · rw [htn, tdiv_million]
    exact_mod_cast (div_bracket 1000000 c.temperature.toNat hn).2

theorem mired_is_floor_clamped_witness :
    ∃ m : Int,
      temperature_mireds ⟨"192.168.1.100".toList, 50, 4500⟩ = Except.ok m ∧
      143 ≤ m ∧ m ≤ 344 ∧
      ∃ q : Int, m = max 143 (min 344 q) ∧
        q * (4500 : Int) ≤ 1000000 ∧ 1000000 < (q + 1) * (4500 : Int) :=
  mired_is_floor_clamped ⟨"192.168.1.100".toList, 50, 4500⟩ (by decide)

/-- C4 counterexample: at 7000 K the mired value is clamped to 143 and the
recovered Kelvin value is 6993, which differs from 7000 by 7, so the round
trip is not within 1 unit. -/
theorem roundtrip_cex :
    temperature_mireds ⟨"192.168.1.100".toList, 100, 7000⟩ = Except.ok 143 ∧
    mireds_to_kelvin 143 = Except.ok 6993 ∧
    ¬(((6993 : Int) - 7000).natAbs ≤ 1) := by
  decide

/-- C4 amended: for every Kelvin temperature in the configured range 2900 to
7000, the mired value lies in the interval from 143 to 344 and converting back
recovers a Kelvin value within 48 units of the original (48 is attained, at
6945 K); the truncating conversions make the error reach 48, not 1. -/
theorem roundtrip_within_48 :
    ∀ c : LightConfig, 2900 ≤ c.temperature → c.temperature ≤ 7000 →
      ∃ m k2 : Int, temperature_mireds c = Except.ok m ∧
        mireds_to_kelvin m = Except.ok k2 ∧
        143 ≤ m ∧ m ≤ 344 ∧ (k2 - c.temperature).natAbs ≤ 48 := by
  intro c h1 h2
  have hne : c.temperature ≠ 0 := by omega
  have htn : c.temperature = ((c.temperature.toNat : Nat) : Int) :=
    (Int.toNat_of_nonneg (by omega)).symm
  set n := c.temperature.toNat with hn
  have hok := roundtrip_all n (by omega) (by omega)
  simp only [roundtripOk, Bool.and_eq_true, decide_eq_true_eq] at hok
  obtain ⟨⟨⟨hm1, hm2⟩, hd1⟩, hd2⟩ := hok
  refine ⟨((max 143 (min 344 (1000000 / n)) : Nat) : Int),
    ((1000000 / max 143 (min 344 (1000000 / n)) : Nat) : Int), ?_, ?_, ?_, ?_, ?_⟩
  · simp only [temperature_mireds, hne, if_false]
    rw [htn, tdiv_million]
    push_cast
    rfl
  · have hm0 : ((max 143 (min 344 (1000000 / n)) : Nat) : Int) ≠ 0 := by
      omega
    simp only [mireds_to_kelvin, hm0, if_false]
    rw [tdiv_million]
  · exact_mod_cast hm1
  · exact_mod_cast hm2
  · omega

theorem roundtrip_within_48_witness :
    ∃ m k2 : Int,
      temperature_mireds ⟨"192.168.1.100".toList, 100, 6945⟩ = Except.ok m ∧
      mireds_to_kelvin m = Except.ok k2 ∧
      143 ≤ m ∧ m ≤ 344 ∧ (k2 - (6945 : Int)).natAbs ≤ 48 :=
  roundtrip_within_48 ⟨"192.168.1.100".toList, 100, 6945⟩ (by decide) (by decide)

theorem buildPayload_ok (turnOn : Bool) (l : LightConfig) (h : l.temperature ≠ 0) :
    ∃ body, buildPayload turnOn l = Except.ok body := by
  cases turnOn <;> simp [buildPayload, temperature_mireds, h, Except.map]

theorem set_lights_zero_temp :
    ∀ (net : List Char → RequestBody → Bool) (lights : List LightConfig),
      (∃ c ∈ lights, c.temperature = 0) →
      set_lights net true lights = Except.error ("ZeroDivisionError: division by zero") := by
  intro net lights
  induction lights with
  | nil =>
    rintro ⟨c, hc, _⟩
    simp at hc
  | cons l rest ih =>
    rintro ⟨c, hc, h0⟩
    by_cases hl : l.temperature = 0
    · simp [set_lights, buildPayload, temperature_mireds, hl, Except.map]
    · have hcr : c ∈ rest := by
        rcases List.mem_cons.mp hc with h | h
        · exact absurd h0 (h ▸ hl)
        · exact h
      obtain ⟨body, hbody⟩ := buildPayload_ok true l hl
      simp [set_lights, hbody, ih ⟨c, hcr, h0⟩, Except.map]

/-- C5 counterexample: a zero-Kelvin entry is accepted by the parser, the
startup check passes (the light list is nonempty, so the process does not exit
non-zero and monitoring begins), and the Kelvin-to-mired conversion is reached
with kelvin 0 on the first turn-on, where the division by zero escapes
set_lights. -/
theorem zero_kelvin_cex :
    parse_lights_config ("192.168.1.7:50:0".toList) =
        Except.ok [⟨"192.168.1.7".toList, 50, 0⟩] ∧
    startupExit ("192.168.1.7:50:0".toList) = Except.ok 0 ∧
    temperature_mireds ⟨"192.168.1.7".toList, 50, 0⟩ =
        Except.error ("ZeroDivisionError: division by zero") ∧
    set_lights (fun _ _ => true) true [⟨"192.168.1.7".toList, 50, 0⟩] =
        Except.error ("ZeroDivisionError: division by zero") := by
  decide

/-- C5 amended: a configured color temperature of zero Kelvin is not a fatal
startup error — any configuration that parses to a nonempty light list passes
the startup check with exit code 0, zero-Kelvin entries included — and the
Kelvin-to-mired conversion is evaluated with kelvin 0 at dispatch time: a
turn-on dispatch over a list containing a zero-Kelvin light raises
ZeroDivisionError out of set_lights. -/
theorem zero_kelvin_not_startup_fatal :
    (∀ (env : List Char) (ls : List LightConfig),
        parse_lights_config env = Except.ok ls → ls ≠ [] →
        startupExit env = Except.ok 0) ∧
    (∀ (net : List Char → RequestBody → Bool) (lights : List LightConfig),
        (∃ c ∈ lights, c.temperature = 0) →
        set_lights net true lights =
          Except.error ("ZeroDivisionError: division by zero")) := by
  constructor
  · intro env ls hp hne
    simp [startupExit, hp, hne, Except.map]
  · exact set_lights_zero_temp

theorem zero_kelvin_not_startup_fatal_witness :
    startupExit ("192.168.1.7:50:0".toList) = Except.ok 0 ∧
    set_lights (fun _ _ => true) true [⟨"192.168.1.7".toList, 50, 0⟩] =
      Except.error ("ZeroDivisionError: division by zero") :=
  ⟨zero_kelvin_not_startup_fatal.1 ("192.168.1.7:50:0".toList)
      [⟨"192.168.1.7".toList, 50, 0⟩] (by decide) (by decide),
    zero_kelvin_not_startup_fatal.2 (fun _ _ => true) [⟨"192.168.1.7".toList, 50, 0⟩]
      ⟨⟨"192.168.1.7".toList, 50, 0⟩, by decide, rfl⟩⟩

/-- C6: for every network oracle, turnOn flag and list of targets whose
temperatures are nonzero (the LightTarget data model confines temperatures to
2900 through 7000 K; the zero case is claim C5's subject), set_lights returns
one outcome per target in order, each outcome carrying that target's address
and determined only by that target's own request, so one failing device never
prevents or alters another device's outcome, and no exception escapes. -/
theorem fanout_isolated :
    ∀ (net : List Char → RequestBody → Bool) (turnOn : Bool) (lights : List LightConfig),
      (∀ l ∈ lights, l.temperature ≠ 0) →
      ∃ os : List DispatchOutcome, set_lights net turnOn lights = Except.ok os ∧
        os.length = lights.length ∧
        ∀ i (hi : i < os.length) (hl : i < lights.length),
          ∃ body, buildPayload turnOn (lights.get ⟨i, hl⟩) = Except.ok body ∧
            os.get ⟨i, hi⟩ =
              ⟨(lights.get ⟨i, hl⟩).ip, net (lights.get ⟨i, hl⟩).ip body⟩ := by
  intro net turnOn lights
  induction lights with
  | nil =>
    intro _
    exact ⟨[], rfl, rfl, fun i hi hl => absurd hi (by simp)⟩
  | cons l rest ih =>
    intro h
    obtain ⟨body, hbody⟩ := buildPayload_ok turnOn l (h l (List.mem_cons_self l rest))
    obtain ⟨os, hos, hlen, hget⟩ := ih (fun x hx => h x (List.mem_cons_of_mem l hx))
    refine ⟨⟨l.ip, net l.ip body⟩ :: os, ?_, by simpa using hlen, ?_⟩
    · simp [set_lights, hbody, hos, Except.map]
    · intro i hi hl
      cases i with
      | zero => exact ⟨body, hbody, rfl⟩
      | succ j =>
        have hj : j < os.length := by simpa using hi
        have hj2 : j < rest.length := by simpa using hl
        simpa using hget j hj hj2

theorem fanout_isolated_witness :
    (∃ os : List DispatchOutcome, set_lights exNet true exLights = Except.ok os ∧
        os.length = exLights.length ∧
        ∀ i (hi : i < os.length) (hl : i < exLights.length),
          ∃ body, buildPayload true (exLights.get ⟨i, hl⟩) = Except.ok body ∧
            os.get ⟨i, hi⟩ =
              ⟨(exLights.get ⟨i, hl⟩).ip, exNet (exLights.get ⟨i, hl⟩).ip body⟩) ∧
    set_lights exNet true exLights =
      Except.ok [⟨"10.0.0.1".toList, true⟩, ⟨"10.0.0.2".toList, false⟩,
        ⟨"10.0.0.3".toList, true⟩] :=
  ⟨fanout_isolated exNet true exLights (by decide), by decide⟩

/-- C7: the power-off body is exactly the singleton lights array with on set
to 0 and no brightness or temperature key, for every target; the power-on body
for a target with positive temperature carries on set to 1 together with that
target's brightness and its mired temperature. -/
theorem power_payloads :
    ∀ l : LightConfig,
      buildPayload false l = Except.ok ⟨[⟨0, none, none⟩]⟩ ∧
      (0 < l.temperature →
        ∃ m : Int, temperature_mireds l = Except.ok m ∧
          buildPayload true l = Except.ok ⟨[⟨1, some l.brightness, some m⟩]⟩) := by
  intro l
  constructor
  · rfl
  · intro h
    have hne : l.temperature ≠ 0 := by omega
    exact ⟨max 143 (min 344 (Int.tdiv 1000000 l.temperature)),
      by simp [temperature_mireds, hne],
      by simp [buildPayload, temperature_mireds, hne, Except.map]⟩

theorem power_payloads_witness :
    buildPayload false ⟨"10.0.0.1".toList, 50, 4500⟩ = Except.ok ⟨[⟨0, none, none⟩]⟩ ∧
    (∃ m : Int, temperature_mireds ⟨"10.0.0.1".toList, 50, 4500⟩ = Except.ok m ∧
      buildPayload true ⟨"10.0.0.1".toList, 50, 4500⟩ =
        Except.ok ⟨[⟨1, some 50, some m⟩]⟩) :=
  ⟨(power_payloads ⟨"10.0.0.1".toList, 50, 4500⟩).1,
    (power_payloads ⟨"10.0.0.1".toList, 50, 4500⟩).2 (by decide)⟩

theorem parseEntries_wellformed :
    ∀ es : List (List Char),
      (∀ e ∈ es,
        (pyStrip e).isEmpty = false ∧ (specEntryTarget (pyStrip e)).isSome = true) →
      parseEntries es =
        Except.ok (es.map (fun e => (specEntryTarget (pyStrip e)).getD ⟨[], 0, 0⟩)) := by
  intro es
  induction es with
  | nil => intro _; rfl
  | cons e rest ih =>
    intro h
    obtain ⟨hne, hsome⟩ := h e (List.mem_cons_self e rest)
    have hrest := ih (fun x hx => h x (List.mem_cons_of_mem e hx))
    rcases hsp : splitOnChar ':' (pyStrip e) with _ | ⟨ip, _ | ⟨b, _ | ⟨t, _ | ⟨x, xs⟩⟩⟩⟩
    · rw [specEntryTarget, hsp] at hsome
      simp at hsome
    · simp [parseEntries, hne, hsp, hrest, Except.map, specEntryTarget]
    · rw [specEntryTarget, hsp] at hsome
      simp at hsome
    · have hsome2 : (match pyInt b, pyInt t with
          | Except.ok bv, Except.ok tv => some (⟨ip, bv, tv⟩ : LightConfig)
          | _, _ => none).isSome = true := by
        simpa [specEntryTarget, hsp] using hsome
      rcases hb : pyInt b with mb | bv
      · rw [hb] at hsome2; simp at hsome2
      · rcases ht : pyInt t with mt | tv
        · rw [hb, ht] at hsome2; simp at hsome2
        · simp [parseEntries, hne, hsp, hb, ht, hrest, Except.map, specEntryTarget]
    · rw [specEntryTarget, hsp] at hsome
      simp at hsome

/-- C8: a configuration string whose comma-separated entries are all
well-formed (after stripping: a bare address, or an
address:brightness:temperature triple with numeric fields) parses to exactly
one target per entry, in the entries' order, a bare address receiving the
defaults brightness 100 and temperature 5600 K and a triple receiving its own
values; specEntryTarget is the per-entry contract stated from the spec. -/
theorem config_parsing_wellformed :
    ∀ env : List Char,
      (∀ e ∈ splitOnChar ',' env,
        (pyStrip e).isEmpty = false ∧ (specEntryTarget (pyStrip e)).isSome = true) →
      parse_lights_config env =
        Except.ok ((splitOnChar ',' env).map
          (fun e => (specEntryTarget (pyStrip e)).getD ⟨[], 0, 0⟩)) := by
  intro env h
  cases env with
  | nil =>
    have := (h [] (by decide)).1
    simp [pyStrip] at this
  | cons c cs =>
    have hne : List.isEmpty (c :: cs) = false := rfl
    rw [parse_lights_config, hne]
    simp only [Bool.false_eq_true, if_false]
    exact parseEntries_wellformed _ h

theorem config_parsing_wellformed_witness :
    parse_lights_config ("10.0.0.5:50:4500,10.0.0.6".toList) =
      Except.ok [⟨"10.0.0.5".toList, 50, 4500⟩, ⟨"10.0.0.6".toList, 100, 5600⟩] :=
  (config_parsing_wellformed ("10.0.0.5:50:4500,10.0.0.6".toList) (by decide)).trans
    (by decide)

/-- C9: an entry whose stripped form is nonempty but splits on colons into a
field count other than 1 or 3 is skipped: it contributes no target, raises
nothing, and leaves the targets produced for all other entries exactly as they
would have been without it. -/
theorem malformed_entry_skipped :
    ∀ (pre post : List (List Char)) (bad : List Char),
      (pyStrip bad).isEmpty = false →
      (splitOnChar ':' (pyStrip bad)).length ≠ 1 →
      (splitOnChar ':' (pyStrip bad)).length ≠ 3 →
      parseEntries (pre ++ bad :: post) = parseEntries (pre ++ post) := by
  intro pre post bad hne h1 h3
  induction pre with
  | nil =>
    simp only [List.nil_append]
    rcases hsp : splitOnChar ':' (pyStrip bad) with _ | ⟨a, _ | ⟨b, _ | ⟨c, _ | ⟨d, ds⟩⟩⟩⟩
    · simp [parseEntries, hne, hsp]
    · rw [hsp] at h1; simp at h1
    · simp [parseEntries, hne, hsp]
    · rw [hsp] at h3; simp at h3
    · simp [parseEntries, hne, hsp]
  | cons p pre ih =>
    have ih2 : parseEntries (pre.append (bad :: post)) = parseEntries (pre.append post) := ih
    simp only [List.cons_append, parseEntries]
    rw [ih2]

theorem malformed_entry_skipped_witness :
    parse_lights_config ("bad:entry:with:too:many:parts".toList) = Except.ok [] := by
  have h := malformed_entry_skipped [] [] ("bad:entry:with:too:many:parts".toList)
    (by decide) (by decide) (by decide)
  have e1 : splitOnChar ',' ("bad:entry:with:too:many:parts".toList) =
      [("bad:entry:with:too:many:parts".toList)] := by decide
  have e2 : parse_lights_config ("bad:entry:with:too:many:parts".toList) =
      parseEntries [("bad:entry:with:too:many:parts".toList)] := by
    rw [parse_lights_config, e1]
    rfl
  rw [e2]
  simpa using h

end ZoomElgato
